import Mathlib

/-!
Verification of the TPIMS truck-parking poller (`src/poller.py`).

The program fetches JSON feeds, normalizes them into rows via two
normalizers (`parse_standard` for the Illinois/Kentucky/Minnesota
shape, `parse_indiana` for the GeoJSON shape), stamps every row with a
single per-run poll timestamp and submits the batch to a bulk sink.

We embed the JSON data the program manipulates as an inductive `JVal`,
translate the Python primitives the script uses (`dict.get`, `int()`,
`str()`, `len()`, indexing, `in`, `split`) as total or `Option`-valued
Lean functions (where `none` models an uncaught Python exception), and
translate both normalizers and the orchestration of `main` line by
line.  JSON numbers are modelled as integers: none of the verified
properties computes with a fractional value (coordinates are carried
verbatim and availability/capacity go through `int()` which the feeds
supply as integer-valued data).
-/

/-- A JSON value as decoded by `json.loads`, and equally any Python value
the script builds from one.  Objects are association lists with the
string keys produced by JSON decoding (keys are unique in a decoded
document, later code only reads them via `dict.get`). -/
inductive JVal where
  | null
  | bool (b : Bool)
  | int (n : Int)
  | str (s : String)
  | arr (xs : List JVal)
  | obj (fields : List (String × JVal))

/-- Python truthiness of a value: `None`, `False`, `0`, `""`, `[]` and
an empty dict are falsy, everything else is truthy. -/
def pyTruthy : JVal → Bool
  | .null => false
  | .bool b => b
  | .int n => n != 0
  | .str s => !s.isEmpty
  | .arr xs => !xs.isEmpty
  | .obj fs => !fs.isEmpty

/-- Lookup of a key in a decoded JSON object, with a default: the
semantics of `d.get(k, default)` on a dict. -/
def objGetD (fields : List (String × JVal)) (k : String) (d : JVal) : JVal :=
  match fields.find? (fun p => p.1 == k) with
  | some p => p.2
  | none => d

/-- Semantics of the Python expression `v.get(k, d)`: succeeds on a
dict, raises `AttributeError` (modelled as `none`) on anything else. -/
def pyGetD (v : JVal) (k : String) (d : JVal) : Option JVal :=
  match v with
  | .obj fs => some (objGetD fs k d)
  | _ => none

/-- Semantics of Python `int(x)` applied to a decoded string: strip
surrounding whitespace, an optional sign, then a non-empty run of
decimal digits.  (Pythonic extras such as underscore group separators
or non-ASCII digits do not occur in these feeds and are not modelled.) -/
def pyIntOfStr (s : String) : Option Int :=
  let core := (((s.toList.dropWhile Char.isWhitespace).reverse).dropWhile Char.isWhitespace).reverse
  let signed : Option (Bool × List Char) :=
    match core with
    | '-' :: ds => some (true, ds)
    | '+' :: ds => some (false, ds)
    | ds => some (false, ds)
  match signed with
  | some (neg, ds) =>
    if ds.isEmpty || !(ds.all Char.isDigit) then none
    else
      let n : Nat := ds.foldl (fun acc c => acc * 10 + (c.toNat - 48)) 0
      some (if neg then -(n : Int) else (n : Int))
  | none => none

/-- Semantics of Python `int(x)` on a decoded JSON value: identity on
integers, `True ↦ 1` / `False ↦ 0`, string parsing per `pyIntOfStr`,
and `TypeError`/`ValueError` (here: `none`) on `None`, lists, dicts and
unparsable strings — exactly the failures the script catches into a
`None` field. -/
def pyInt : JVal → Option Int
  | .int n => some n
  | .bool b => some (if b then 1 else 0)
  | .str s => pyIntOfStr s
  | _ => none

/-- Single quote character, used by `pyRepr` for string rendering. -/
def quoteCh : String := String.singleton (Char.ofNat 39)

/-- Semantics of Python `repr` on decoded JSON values (string escaping
inside container renderings is not modelled — the script never
persists such a rendering, it only ever calls `str` on scalar feed
fields). -/
def pyRepr : JVal → String
  | .null => "None"
  | .bool true => "True"
  | .bool false => "False"
  | .int n => toString n
  | .str s => quoteCh ++ s ++ quoteCh
  | .arr xs => "[" ++ String.intercalate ", " (xs.attach.map (fun x => pyRepr x.1)) ++ "]"
  | .obj fs => "\x7b" ++
      String.intercalate ", "
        (fs.attach.map (fun p => quoteCh ++ p.1.1 ++ quoteCh ++ ": " ++ pyRepr p.1.2)) ++
      "\x7d"
decreasing_by
  · have := List.sizeOf_lt_of_mem x.2
    simp at *
    omega
  · obtain ⟨⟨k, v⟩, hm⟩ := p
    have := List.sizeOf_lt_of_mem hm
    simp at *
    omega

/-- Semantics of Python `str(x)`: strings pass through unquoted, every
other value renders as its `repr`.  Scalar cases are spelled out so
they compute by kernel reduction. -/
def pyStr : JVal → String
  | .null => "None"
  | .bool true => "True"
  | .bool false => "False"
  | .int n => toString n
  | .str s => s
  | .arr xs => pyRepr (.arr xs)
  | .obj fs => pyRepr (.obj fs)

/-- Semantics of Python `len(x)`: defined on strings, lists and dicts,
`TypeError` (none) otherwise. -/
def pyLen : JVal → Option Nat
  | .str s => some s.length
  | .arr xs => some xs.length
  | .obj fs => some fs.length
  | _ => none

/-- Semantics of Python `x[i]` for a non-negative integer subscript `i`:
list indexing (IndexError out of range), string indexing yielding a
one-character string, and a `KeyError`/`TypeError` (none) on a decoded
dict (whose keys are strings) or any other value. -/
def pyIndex (v : JVal) (i : Nat) : Option JVal :=
  match v with
  | .arr xs => xs.get? i
  | .str s => (s.toList.get? i).map (fun c => .str (String.singleton c))
  | _ => none

/-- Semantics of Python iteration `for x in v`: lists yield their
elements, strings their characters, dicts their keys; anything else
raises `TypeError` (none). -/
def pyIter : JVal → Option (List JVal)
  | .arr xs => some xs
  | .str s => some (s.toList.map (fun c => .str (String.singleton c)))
  | .obj fs => some (fs.map (fun p => .str p.1))
  | _ => none

/-- A Python dict key as used by the script's `dyn_lookup`: the decoded
scalar values `None`, booleans, integers and strings are hashable;
Python's key equality identifies `True` with `1` and `False` with `0`,
which the canonicalisation below reproduces. -/
inductive PyKey where
  | none
  | int (n : Int)
  | str (s : String)
deriving DecidableEq, BEq

/-- Key canonicalisation for Python dict operations: scalar values map
to their `PyKey`; lists and dicts are unhashable, so using one as a key
raises `TypeError` (modelled as `none`). -/
def toKey : JVal → Option PyKey
  | .null => some .none
  | .bool b => some (.int (if b then 1 else 0))
  | .int n => some (.int n)
  | .str s => some (.str s)
  | .arr _ => Option.none
  | .obj _ => Option.none

/-- Lookup with default in a dict represented as insertion-ordered
entries: the last insertion of a key wins, as in a Python dict
comprehension with duplicate keys. -/
def dictGet (entries : List (PyKey × JVal)) (k : PyKey) (d : JVal) : JVal :=
  match (entries.filter (fun e => e.1 == k)).getLast? with
  | some e => e.2
  | Option.none => d

/-- Option-valued map over a list, the embedding of a Python `for` loop
whose body may raise: the first raised exception aborts the whole
call (`none`). -/
def mapOpt (f : α → Option β) : List α → Option (List β)
  | [] => some []
  | x :: xs => (f x).bind fun y => (mapOpt f xs).map fun ys => y :: ys

/-- One entry of the comprehension
`{d.get('siteId', ''): d for d in (dynamic_list or [])}`:
fails when `d` is not a dict (`AttributeError`) or its key is
unhashable (`TypeError`). -/
def dynEntry (d : JVal) : Option (PyKey × JVal) :=
  (pyGetD d "siteId" (.str "")).bind fun k => (toKey k).map fun pk => (pk, d)

/-- The `dyn_lookup` dict built at the top of `parse_standard`. -/
def dynLookupBuild (dynamic_list : List JVal) : Option (List (PyKey × JVal)) :=
  mapOpt dynEntry dynamic_list

/-- Location normalisation, lines 50–54 of `parse_standard`:
a non-empty list is unwrapped to its first element (whatever it is),
an empty list or any other non-dict value becomes the empty dict, and
a dict is kept as is. -/
def normLoc : JVal → JVal
  | .arr (x :: _) => x
  | .arr [] => .obj []
  | .obj fs => .obj fs
  | _ => .obj []

/-- A normalized output row, one per parking site per poll.  `capacity`
and `available_spaces` are `Option Int` because the script's
`try: int(...) except: None` leaves exactly an integer or Python
`None` in these fields; every other field carries the JSON value (or
the string the script computes) verbatim.  `poll_utc` is `none` until
`main` stamps the row. -/
structure Row where
  state : String
  site_id : JVal
  name : JVal
  highway : JVal
  direction : JVal
  latitude : JVal
  longitude : JVal
  capacity : Option Int
  available_spaces : Option Int
  trend : JVal
  is_open : String
  trust_data : String
  source_timestamp : JVal
  poll_utc : Option String := Option.none

/-- The loop body of `parse_standard` (lines 49–83 of `poller.py`) for
one static record `s`, given the prebuilt `dyn_lookup`.  Each bind is
one fallible Python expression, in source order; `none` is an uncaught
exception (e.g. `s.get` on a non-dict static record, an unhashable
`siteId` used as a lookup key, or `loc.get` on a non-dict normalized
location). -/
def rowStd (state : String) (lookup : List (PyKey × JVal)) (s : JVal) : Option Row :=
  match pyGetD s "siteId" (JVal.str "") with
  | Option.none => Option.none
  | some sid =>
  match pyGetD s "location" (JVal.obj []) with
  | Option.none => Option.none
  | some locRaw =>
  let loc := normLoc locRaw
  match toKey sid with
  | Option.none => Option.none
  | some sidK =>
  let dyn := dictGet lookup sidK (JVal.obj [])
  match pyGetD dyn "capacity" JVal.null with
  | Option.none => Option.none
  | some dynCap =>
  match pyGetD s "capacity" dynCap with
  | Option.none => Option.none
  | some capRaw =>
  match pyGetD dyn "reportedAvailable" JVal.null with
  | Option.none => Option.none
  | some availRaw =>
  match pyGetD s "name" (JVal.str "") with
  | Option.none => Option.none
  | some name =>
  match pyGetD s "relevantHighway" (JVal.str "") with
  | Option.none => Option.none
  | some highway =>
  match pyGetD s "directionOfTravel" (JVal.str "") with
  | Option.none => Option.none
  | some direction =>
  match pyGetD loc "latitude" JVal.null with
  | Option.none => Option.none
  | some latitude =>
  match pyGetD loc "longitude" JVal.null with
  | Option.none => Option.none
  | some longitude =>
  match pyGetD dyn "trend" (JVal.str "") with
  | Option.none => Option.none
  | some trend =>
  match pyGetD dyn "open" (JVal.str "") with
  | Option.none => Option.none
  | some openRaw =>
  match pyGetD dyn "trustData" (JVal.str "") with
  | Option.none => Option.none
  | some trustRaw =>
  match pyGetD s "timeStamp" (JVal.str "") with
  | Option.none => Option.none
  | some tsStatic =>
  match pyGetD dyn "timeStamp" tsStatic with
  | Option.none => Option.none
  | some sourceTs =>
  some { state := state, site_id := sid, name := name, highway := highway,
         direction := direction, latitude := latitude, longitude := longitude,
         capacity := pyInt capRaw, available_spaces := pyInt availRaw,
         trend := trend, is_open := pyStr openRaw, trust_data := pyStr trustRaw,
         source_timestamp := sourceTs }

/-- The standard-format normalizer (`parse_standard`, lines 45–84).
`main` only calls it with genuine lists (after its `isinstance`
checks), so the parameters are typed as lists; `(xs or [])` is then
the identity, an empty list being falsy. -/
def parse_standard (state : String) (static_list dynamic_list : List JVal) :
    Option (List Row) :=
  match dynLookupBuild dynamic_list with
  | Option.none => Option.none
  | some lookup => mapOpt (rowStd state lookup) static_list

/-- The membership test `'-' in x` of line 118: substring test on a
string (for the one-character needle, equivalent to character
membership), element test on a list, key test on a dict, `TypeError`
(none) otherwise. -/
def pyContainsDash : JVal → Option Bool
  | .str s => some (s.toList.contains '-')
  | .arr xs => some (xs.any fun v => match v with | .str t => t == "-" | _ => false)
  | .obj fs => some (fs.any fun p => p.1 == "-")
  | _ => Option.none

/-- The expression `x.split('-')[0]` of line 118: `split` on a string
never returns an empty list, so the indexing is safe; calling it on a
non-string raises `AttributeError` (none). -/
def pySplitHeadDash : JVal → Option JVal
  | .str s => some (.str ((s.splitOn "-").headD ""))
  | _ => Option.none

/-- Status derivation of lines 110–111: exactly the string "open" maps
to "True", exactly "closed" to "False", anything else (including a
non-string) to the empty string. -/
def indStatus : JVal → String
  | .str "open" => "True"
  | .str "closed" => "False"
  | _ => ""

/-- Negative-sentinel suppression of lines 104–106: a parsed negative
availability becomes `None`; parsing failure is already `None`. -/
def negFilter : Option Int → Option Int
  | some n => if n < 0 then Option.none else some n
  | Option.none => Option.none

/-- The direction expression of line 118,
`x.split('-')[0] if '-' in x else ''`, after the membership test has
been evaluated to `hasDash`. -/
def indDirection (hasDash : Bool) (label : JVal) : Option JVal :=
  if hasDash then pySplitHeadDash label else some (JVal.str "")

/-- The coordinate expressions of lines 119–120,
`coords[i] if len(coords) >= 2 else None`, after `len(coords)` has
been evaluated to `clen`. -/
def indCoordAt (clen : Nat) (coords : JVal) (i : Nat) : Option JVal :=
  if 2 ≤ clen then pyIndex coords i else some JVal.null

/-- The loop body of `parse_indiana` (lines 90–127) for one GeoJSON
feature.  Binds appear in the evaluation order of the Python source
(header statements first, then the row-literal fields top to bottom);
`none` is an uncaught exception. -/
def rowInd (feat : JVal) : Option Row :=
  match pyGetD feat "properties" (JVal.obj []) with
  | Option.none => Option.none
  | some props =>
  match pyGetD feat "geometry" (JVal.obj []) with
  | Option.none => Option.none
  | some geo =>
  match pyGetD geo "coordinates" (JVal.arr [JVal.null, JVal.null]) with
  | Option.none => Option.none
  | some coords =>
  match pyGetD props "tpims" (JVal.obj []) with
  | Option.none => Option.none
  | some tpims =>
  match pyGetD tpims "capacity" JVal.null with
  | Option.none => Option.none
  | some capRaw =>
  match pyGetD tpims "spaces_available" JVal.null with
  | Option.none => Option.none
  | some availRaw =>
  match pyGetD props "site_area_status" (JVal.str "") with
  | Option.none => Option.none
  | some status =>
  match pyGetD feat "id" (JVal.str "") with
  | Option.none => Option.none
  | some fallbackId =>
  match pyGetD props "site_label" fallbackId with
  | Option.none => Option.none
  | some site_id =>
  match pyGetD props "site_area_location" (JVal.str "") with
  | Option.none => Option.none
  | some nameFb =>
  match pyGetD props "site_area_description" nameFb with
  | Option.none => Option.none
  | some name =>
  match pyGetD props "site_route" (JVal.str "") with
  | Option.none => Option.none
  | some hwFb =>
  match pyGetD tpims "route" hwFb with
  | Option.none => Option.none
  | some highway =>
  match pyGetD props "site_area_label" (JVal.str "") with
  | Option.none => Option.none
  | some label =>
  match pyContainsDash label with
  | Option.none => Option.none
  | some hasDash =>
  match indDirection hasDash label with
  | Option.none => Option.none
  | some direction =>
  match pyLen coords with
  | Option.none => Option.none
  | some clen =>
  match indCoordAt clen coords 1 with
  | Option.none => Option.none
  | some latitude =>
  match indCoordAt clen coords 0 with
  | Option.none => Option.none
  | some longitude =>
  match pyGetD tpims "last_data" (JVal.str "") with
  | Option.none => Option.none
  | some sourceTs =>
  some { state := "Indiana", site_id := site_id, name := name, highway := highway,
         direction := direction, latitude := latitude, longitude := longitude,
         capacity := pyInt capRaw, available_spaces := negFilter (pyInt availRaw),
         trend := JVal.str "", is_open := indStatus status,
         trust_data := "", source_timestamp := sourceTs }

/-- The feature list extraction of line 88:
`static_data.get('features', []) if isinstance(static_data, dict) else []`. -/
def indFeats (static_data : JVal) : JVal :=
  match static_data with
  | JVal.obj fs => objGetD fs "features" (JVal.arr [])
  | _ => JVal.arr []

/-- The GeoJSON normalizer (`parse_indiana`, lines 87–128).  The
`dynamic_data` parameter is accepted, as in the source, and never
read. -/
def parse_indiana (static_data dynamic_data : JVal) : Option (List Row) :=
  match pyIter (indFeats static_data) with
  | Option.none => Option.none
  | some feats => mapOpt rowInd feats

/-- The outcome of the eight feed fetches of one run: for each state
and feed type, `some v` is the decoded JSON of a successful fetch and
`none` the `FetchError` case, in which `main` stores Python `None` in
`raw` and appends to `errors`. -/
structure FetchResults where
  ilDynamic : Option JVal
  ilStatic : Option JVal
  inDynamic : Option JVal
  inStatic : Option JVal
  kyDynamic : Option JVal
  kyStatic : Option JVal
  mnDynamic : Option JVal
  mnStatic : Option JVal

/-- Number of entries of the `errors` list after the fetch loop: one
per failed fetch. -/
def feedErrorCount (fr : FetchResults) : Nat :=
  [fr.ilDynamic, fr.ilStatic, fr.inDynamic, fr.inStatic,
   fr.kyDynamic, fr.kyStatic, fr.mnDynamic, fr.mnStatic].countP Option.isNone

/-- The guard `raw[state][t] if isinstance(raw[state].get(t), list) else []`
of lines 154–155: a fetched list passes through, a failed fetch or a
non-list payload becomes the empty list. -/
def listOr : Option JVal → List JVal
  | some (.arr xs) => xs
  | _ => []

/-- The stored `raw` value as a Python object: a failed fetch stored
`None`, which coincides with the embedding of JSON `null`. -/
def rawVal : Option JVal → JVal
  | some v => v
  | Option.none => JVal.null

/-- Row collection of `main` (lines 152–159): the three standard-format
states in source order, then Indiana's GeoJSON rows — the latter only
when its static payload was fetched and is truthy. -/
def collectRows (fr : FetchResults) : Option (List Row) :=
  match parse_standard "Illinois" (listOr fr.ilStatic) (listOr fr.ilDynamic) with
  | Option.none => Option.none
  | some il =>
  match parse_standard "Kentucky" (listOr fr.kyStatic) (listOr fr.kyDynamic) with
  | Option.none => Option.none
  | some ky =>
  match parse_standard "Minnesota" (listOr fr.mnStatic) (listOr fr.mnDynamic) with
  | Option.none => Option.none
  | some mn =>
  match (if pyTruthy (rawVal fr.inStatic) then
      parse_indiana (rawVal fr.inStatic) (rawVal fr.inDynamic)
    else some []) with
  | Option.none => Option.none
  | some ind => some (il ++ ky ++ mn ++ ind)

/-- The stamping loop of lines 162–163: every collected row gets the
one `poll_str` of the run. -/
def stampRows (poll : String) (rows : List Row) : List Row :=
  rows.map (fun r => { r with poll_utc := some poll })

/-- The stamped row batch of one run, given the formatted poll
timestamp: `none` when a normalizer raised. -/
def mainRows (fr : FetchResults) (poll : String) : Option (List Row) :=
  (collectRows fr).map (stampRows poll)

/-- Exit code of one run of `main` (lines 167–200), with the warehouse
sink abstracted as the function from the submitted row batch to its
list of row-level error descriptors.  Zero rows exit immediately with
code 1 when feed errors were recorded and 0 otherwise; with rows, the
sink's verdict alone decides (the final success path, implicit exit 0,
merely prints any non-fatal feed errors).  The `bq_rows` list built on
lines 174–191 re-reads every field each row already has, so the batch
submitted is the stamped batch itself. -/
def mainRun (fr : FetchResults) (poll : String) (sink : List Row → List String) :
    Option Nat :=
  match collectRows fr with
  | Option.none => Option.none
  | some rows0 =>
    let rows := stampRows poll rows0
    if rows.isEmpty then
      some (if feedErrorCount fr = 0 then 0 else 1)
    else if (sink rows).isEmpty then some 0 else some 1

/-- A UTC wall-clock instant at second precision, as carried by the
`datetime.now(timezone.utc)` value captured once at the top of `main`. -/
structure DateTimeUTC where
  year : Nat
  month : Nat
  day : Nat
  hour : Nat
  minute : Nat
  second : Nat

/-- The invariants `datetime` guarantees for its fields. -/
def DateTimeUTC.valid (t : DateTimeUTC) : Prop :=
  1 ≤ t.year ∧ t.year ≤ 9999 ∧ 1 ≤ t.month ∧ t.month ≤ 12 ∧
  1 ≤ t.day ∧ t.day ≤ 31 ∧ t.hour ≤ 23 ∧ t.minute ≤ 59 ∧ t.second ≤ 59

/-- Decimal digit character of `n`'s given decimal position. -/
def digitChar (n : Nat) : Char := Char.ofNat (48 + n % 10)

/-- The formatted poll timestamp
`poll_time.strftime('%Y-%m-%dT%H:%M:%SZ')` of line 133, rendered digit
by digit: for every field within its `datetime` range (two digits,
four for the year) this is exactly the zero-padded rendering
`strftime` produces. -/
def formatPoll (t : DateTimeUTC) : String :=
  String.mk [digitChar (t.year / 1000), digitChar (t.year / 100),
    digitChar (t.year / 10), digitChar t.year, '-',
    digitChar (t.month / 10), digitChar t.month, '-',
    digitChar (t.day / 10), digitChar t.day, 'T',
    digitChar (t.hour / 10), digitChar t.hour, ':',
    digitChar (t.minute / 10), digitChar t.minute, ':',
    digitChar (t.second / 10), digitChar t.second, 'Z']

/-- Decidable check that a string matches
`^\d\x7b4\x7d-\d\x7b2\x7d-\d\x7b2\x7dT\d\x7b2\x7d:\d\x7b2\x7d:\d\x7b2\x7dZ$`,
the documented shape of `poll_utc`. -/
def matchesPollShape (s : String) : Bool :=
  match s.data with
  | [y1, y2, y3, y4, h1, mo1, mo2, h2, d1, d2, tc,
     hh1, hh2, c1, mi1, mi2, c2, se1, se2, zc] =>
    y1.isDigit && y2.isDigit && y3.isDigit && y4.isDigit && h1 == '-' &&
    mo1.isDigit && mo2.isDigit && h2 == '-' && d1.isDigit && d2.isDigit &&
    tc == 'T' && hh1.isDigit && hh2.isDigit && c1 == ':' &&
    mi1.isDigit && mi2.isDigit && c2 == ':' && se1.isDigit && se2.isDigit &&
    zc == 'Z'
  | _ => false

/-- Predicate on a dynamic record: its raw `open` field, if any, is a
JSON boolean.  Under this condition (and only then) the stringified
`is_open` of `parse_standard` stays within the documented tri-state. -/
def boolOrAbsentOpen : JVal → Bool
  | .obj fs =>
    match fs.find? (fun p => p.1 == "open") with
    | some p => match p.2 with | .bool _ => true | _ => false
    | Option.none => true
  | _ => true

theorem mapOpt_length {α β : Type} (f : α → Option β) :
    ∀ (xs : List α) (ys : List β), mapOpt f xs = some ys → ys.length = xs.length
  | [], ys, h => by
    simp only [mapOpt, Option.some.injEq] at h
    simp [← h]
  | x :: xs, ys, h => by
    simp only [mapOpt, Option.bind_eq_some, Option.map_eq_some'] at h
    obtain ⟨y, hy, ys0, hys0, rfl⟩ := h
    simp [mapOpt_length f xs ys0 hys0]

theorem mapOpt_get {α β : Type} (f : α → Option β) :
    ∀ (xs : List α) (ys : List β), mapOpt f xs = some ys →
      ∀ (i : Nat) (hi : i < xs.length) (hr : i < ys.length),
        f (xs.get ⟨i, hi⟩) = some (ys.get ⟨i, hr⟩)
  | [], ys, h, i, hi, hr => by simp at hi
  | x :: xs, ys, h, i, hi, hr => by
    simp only [mapOpt, Option.bind_eq_some, Option.map_eq_some'] at h
    obtain ⟨y, hy, ys0, hys0, rfl⟩ := h
    cases i with
    | zero => simpa using hy
    | succ n =>
      simpa using mapOpt_get f xs ys0 hys0 n (by simpa using hi) (by simpa using hr)

theorem mapOpt_mem {α β : Type} (f : α → Option β) :
    ∀ (xs : List α) (ys : List β), mapOpt f xs = some ys →
      ∀ y ∈ ys, ∃ x ∈ xs, f x = some y
  | [], ys, h, y, hy => by
    simp only [mapOpt, Option.some.injEq] at h
    subst h
    simp at hy
  | x :: xs, ys, h, y, hy => by
    simp only [mapOpt, Option.bind_eq_some, Option.map_eq_some'] at h
    obtain ⟨y0, hy0, ys0, hys0, rfl⟩ := h
    rcases List.mem_cons.mp hy with h1 | h1
    · exact ⟨x, List.mem_cons_self x xs, h1 ▸ hy0⟩
    · obtain ⟨x0, hx0, hfx0⟩ := mapOpt_mem f xs ys0 hys0 y h1
      exact ⟨x0, List.mem_cons_of_mem x hx0, hfx0⟩

theorem dictGet_default_or_mem (entries : List (PyKey × JVal)) (k : PyKey) (d : JVal) :
    dictGet entries k d = d ∨ dictGet entries k d ∈ entries.map Prod.snd := by
  unfold dictGet
  cases hl : (entries.filter (fun e => e.1 == k)).getLast? with
  | none => exact Or.inl rfl
  | some e =>
    refine Or.inr (List.mem_map.mpr ⟨e, ?_, rfl⟩)
    obtain ⟨hne, heq⟩ := List.mem_getLast?_eq_getLast (Option.mem_def.mpr hl)
    exact List.mem_of_mem_filter (heq ▸ List.getLast_mem hne)

theorem dynEntry_snd (d : JVal) (e : PyKey × JVal) (h : dynEntry d = some e) :
    e.2 = d := by
  unfold dynEntry at h
  simp only [Option.bind_eq_some, Option.map_eq_some'] at h
  obtain ⟨k, hk, pk, hpk, rfl⟩ := h
  rfl

theorem pyGetD_eq_some (v : JVal) (k : String) (d w : JVal)
    (h : pyGetD v k d = some w) : ∃ fs, v = JVal.obj fs ∧ w = objGetD fs k d := by
  cases v with
  | obj fs =>
    refine ⟨fs, rfl, ?_⟩
    simpa [pyGetD] using h.symm
  | null => simp [pyGetD] at h
  | bool b => simp [pyGetD] at h
  | int n => simp [pyGetD] at h
  | str s => simp [pyGetD] at h
  | arr xs => simp [pyGetD] at h

theorem digitChar_isDigit (n : Nat) : (digitChar n).isDigit = true := by
  have h : n % 10 < 10 := Nat.mod_lt _ (by norm_num)
  unfold digitChar
  set k := n % 10 with hk
  interval_cases k <;> rfl

theorem formatPoll_shape (t : DateTimeUTC) : matchesPollShape (formatPoll t) = true := by
  simp [matchesPollShape, formatPoll, digitChar_isDigit]

/-- Normal form of `rowStd` as a chain of `Option.bind`: each bound
value is one fallible expression of the loop body, in evaluation
order. -/
theorem rowStd_eq_bind (state : String) (lookup : List (PyKey × JVal)) (s : JVal) :
    rowStd state lookup s =
    (pyGetD s "siteId" (JVal.str "")).bind fun sid =>
    (pyGetD s "location" (JVal.obj [])).bind fun locRaw =>
    (toKey sid).bind fun sidK =>
    (pyGetD (dictGet lookup sidK (JVal.obj [])) "capacity" JVal.null).bind fun dynCap =>
    (pyGetD s "capacity" dynCap).bind fun capRaw =>
    (pyGetD (dictGet lookup sidK (JVal.obj [])) "reportedAvailable" JVal.null).bind fun availRaw =>
    (pyGetD s "name" (JVal.str "")).bind fun name =>
    (pyGetD s "relevantHighway" (JVal.str "")).bind fun highway =>
    (pyGetD s "directionOfTravel" (JVal.str "")).bind fun direction =>
    (pyGetD (normLoc locRaw) "latitude" JVal.null).bind fun latitude =>
    (pyGetD (normLoc locRaw) "longitude" JVal.null).bind fun longitude =>
    (pyGetD (dictGet lookup sidK (JVal.obj [])) "trend" (JVal.str "")).bind fun trend =>
    (pyGetD (dictGet lookup sidK (JVal.obj [])) "open" (JVal.str "")).bind fun openRaw =>
    (pyGetD (dictGet lookup sidK (JVal.obj [])) "trustData" (JVal.str "")).bind fun trustRaw =>
    (pyGetD s "timeStamp" (JVal.str "")).bind fun tsStatic =>
    (pyGetD (dictGet lookup sidK (JVal.obj [])) "timeStamp" tsStatic).bind fun sourceTs =>
    some { state := state, site_id := sid, name := name, highway := highway,
           direction := direction, latitude := latitude, longitude := longitude,
           capacity := pyInt capRaw, available_spaces := pyInt availRaw,
           trend := trend, is_open := pyStr openRaw, trust_data := pyStr trustRaw,
           source_timestamp := sourceTs } := by
  unfold rowStd
  dsimp only
  cases pyGetD s "siteId" (JVal.str "") <;> try rfl
  rename_i sid
  dsimp only [Option.some_bind']
  cases pyGetD s "location" (JVal.obj []) <;> try rfl
  rename_i locRaw
  dsimp only [Option.some_bind']
  cases toKey sid <;> try rfl
  rename_i sidK
  dsimp only [Option.some_bind']
  cases pyGetD (dictGet lookup sidK (JVal.obj [])) "capacity" JVal.null <;> try rfl
  rename_i dynCap
  dsimp only [Option.some_bind']
  cases pyGetD s "capacity" dynCap <;> try rfl
  dsimp only [Option.some_bind']
  cases pyGetD (dictGet lookup sidK (JVal.obj [])) "reportedAvailable" JVal.null <;> try rfl
  dsimp only [Option.some_bind']
  cases pyGetD s "name" (JVal.str "") <;> try rfl
  dsimp only [Option.some_bind']
  cases pyGetD s "relevantHighway" (JVal.str "") <;> try rfl
  dsimp only [Option.some_bind']
  cases pyGetD s "directionOfTravel" (JVal.str "") <;> try rfl
  dsimp only [Option.some_bind']
  cases pyGetD (normLoc locRaw) "latitude" JVal.null <;> try rfl
  dsimp only [Option.some_bind']
  cases pyGetD (normLoc locRaw) "longitude" JVal.null <;> try rfl
  dsimp only [Option.some_bind']
  cases pyGetD (dictGet lookup sidK (JVal.obj [])) "trend" (JVal.str "") <;> try rfl
  dsimp only [Option.some_bind']
  cases pyGetD (dictGet lookup sidK (JVal.obj [])) "open" (JVal.str "") <;> try rfl
  dsimp only [Option.some_bind']
  cases pyGetD (dictGet lookup sidK (JVal.obj [])) "trustData" (JVal.str "") <;> try rfl
  dsimp only [Option.some_bind']
  cases pyGetD s "timeStamp" (JVal.str "") <;> try rfl
  rename_i tsStatic
  dsimp only [Option.some_bind']
  cases pyGetD (dictGet lookup sidK (JVal.obj [])) "timeStamp" tsStatic <;> rfl

/-- Inversion principle for a successful `rowStd`: every produced row
is the record literal built from the extracted raw feed values. -/
theorem rowStd_char (state : String) (lookup : List (PyKey × JVal)) (s : JVal) (r : Row)
    (h : rowStd state lookup s = some r) :
    ∃ sid locRaw sidK dynCap capRaw availRaw name highway direction latitude longitude
      trend openRaw trustRaw tsStatic sourceTs,
      pyGetD s "siteId" (JVal.str "") = some sid ∧
      pyGetD s "location" (JVal.obj []) = some locRaw ∧
      toKey sid = some sidK ∧
      pyGetD (dictGet lookup sidK (JVal.obj [])) "capacity" JVal.null = some dynCap ∧
      pyGetD s "capacity" dynCap = some capRaw ∧
      pyGetD (dictGet lookup sidK (JVal.obj [])) "reportedAvailable" JVal.null = some availRaw ∧
      pyGetD s "name" (JVal.str "") = some name ∧
      pyGetD s "relevantHighway" (JVal.str "") = some highway ∧
      pyGetD s "directionOfTravel" (JVal.str "") = some direction ∧
      pyGetD (normLoc locRaw) "latitude" JVal.null = some latitude ∧
      pyGetD (normLoc locRaw) "longitude" JVal.null = some longitude ∧
      pyGetD (dictGet lookup sidK (JVal.obj [])) "trend" (JVal.str "") = some trend ∧
      pyGetD (dictGet lookup sidK (JVal.obj [])) "open" (JVal.str "") = some openRaw ∧
      pyGetD (dictGet lookup sidK (JVal.obj [])) "trustData" (JVal.str "") = some trustRaw ∧
      pyGetD s "timeStamp" (JVal.str "") = some tsStatic ∧
      pyGetD (dictGet lookup sidK (JVal.obj [])) "timeStamp" tsStatic = some sourceTs ∧
      r = { state := state, site_id := sid, name := name, highway := highway,
            direction := direction, latitude := latitude, longitude := longitude,
            capacity := pyInt capRaw, available_spaces := pyInt availRaw,
            trend := trend, is_open := pyStr openRaw, trust_data := pyStr trustRaw,
            source_timestamp := sourceTs } := by
  rw [rowStd_eq_bind] at h
  rw [Option.bind_eq_some] at h
  obtain ⟨sid, h1, h⟩ := h
  rw [Option.bind_eq_some] at h
  obtain ⟨locRaw, h2, h⟩ := h
  rw [Option.bind_eq_some] at h
  obtain ⟨sidK, h3, h⟩ := h
  rw [Option.bind_eq_some] at h
  obtain ⟨dynCap, h4, h⟩ := h
  rw [Option.bind_eq_some] at h
  obtain ⟨capRaw, h5, h⟩ := h
  rw [Option.bind_eq_some] at h
  obtain ⟨availRaw, h6, h⟩ := h
  rw [Option.bind_eq_some] at h
  obtain ⟨name, h7, h⟩ := h
  rw [Option.bind_eq_some] at h
  obtain ⟨highway, h8, h⟩ := h
  rw [Option.bind_eq_some] at h
  obtain ⟨direction, h9, h⟩ := h
  rw [Option.bind_eq_some] at h
  obtain ⟨latitude, h10, h⟩ := h
  rw [Option.bind_eq_some] at h
  obtain ⟨longitude, h11, h⟩ := h
  rw [Option.bind_eq_some] at h
  obtain ⟨trend, h12, h⟩ := h
  rw [Option.bind_eq_some] at h
  obtain ⟨openRaw, h13, h⟩ := h
  rw [Option.bind_eq_some] at h
  obtain ⟨trustRaw, h14, h⟩ := h
  rw [Option.bind_eq_some] at h
  obtain ⟨tsStatic, h15, h⟩ := h
  rw [Option.bind_eq_some] at h
  obtain ⟨sourceTs, h16, h⟩ := h
  rw [Option.some.injEq] at h
  have h17 := h
  exact ⟨sid, locRaw, sidK, dynCap, capRaw, availRaw, name, highway, direction, latitude,
    longitude, trend, openRaw, trustRaw, tsStatic, sourceTs, h1, h2, h3, h4, h5, h6, h7,
    h8, h9, h10, h11, h12, h13, h14, h15, h16, h17.symm⟩

/-- Normal form of `rowInd` as a chain of `Option.bind`: each bound
value is one fallible expression of the GeoJSON loop body, in
evaluation order. -/
theorem rowInd_eq_bind (feat : JVal) :
    rowInd feat =
    (pyGetD feat "properties" (JVal.obj [])).bind fun props =>
    (pyGetD feat "geometry" (JVal.obj [])).bind fun geo =>
    (pyGetD geo "coordinates" (JVal.arr [JVal.null, JVal.null])).bind fun coords =>
    (pyGetD props "tpims" (JVal.obj [])).bind fun tpims =>
    (pyGetD tpims "capacity" JVal.null).bind fun capRaw =>
    (pyGetD tpims "spaces_available" JVal.null).bind fun availRaw =>
    (pyGetD props "site_area_status" (JVal.str "")).bind fun status =>
    (pyGetD feat "id" (JVal.str "")).bind fun fallbackId =>
    (pyGetD props "site_label" fallbackId).bind fun site_id =>
    (pyGetD props "site_area_location" (JVal.str "")).bind fun nameFb =>
    (pyGetD props "site_area_description" nameFb).bind fun name =>
    (pyGetD props "site_route" (JVal.str "")).bind fun hwFb =>
    (pyGetD tpims "route" hwFb).bind fun highway =>
    (pyGetD props "site_area_label" (JVal.str "")).bind fun label =>
    (pyContainsDash label).bind fun hasDash =>
    (indDirection hasDash label).bind fun direction =>
    (pyLen coords).bind fun clen =>
    (indCoordAt clen coords 1).bind fun latitude =>
    (indCoordAt clen coords 0).bind fun longitude =>
    (pyGetD tpims "last_data" (JVal.str "")).bind fun sourceTs =>
    some { state := "Indiana", site_id := site_id, name := name, highway := highway,
           direction := direction, latitude := latitude, longitude := longitude,
           capacity := pyInt capRaw, available_spaces := negFilter (pyInt availRaw),
           trend := JVal.str "", is_open := indStatus status,
           trust_data := "", source_timestamp := sourceTs } := by
  unfold rowInd
  cases pyGetD feat "properties" (JVal.obj []) <;> try rfl
  rename_i props
  dsimp only [Option.some_bind']
  cases pyGetD feat "geometry" (JVal.obj []) <;> try rfl
  rename_i geo
  dsimp only [Option.some_bind']
  cases pyGetD geo "coordinates" (JVal.arr [JVal.null, JVal.null]) <;> try rfl
  rename_i coords
  dsimp only [Option.some_bind']
  cases pyGetD props "tpims" (JVal.obj []) <;> try rfl
  rename_i tpims
  dsimp only [Option.some_bind']
  cases pyGetD tpims "capacity" JVal.null <;> try rfl
  dsimp only [Option.some_bind']
  cases pyGetD tpims "spaces_available" JVal.null <;> try rfl
  dsimp only [Option.some_bind']
  cases pyGetD props "site_area_status" (JVal.str "") <;> try rfl
  dsimp only [Option.some_bind']
  cases pyGetD feat "id" (JVal.str "") <;> try rfl
  rename_i fallbackId
  dsimp only [Option.some_bind']
  cases pyGetD props "site_label" fallbackId <;> try rfl
  dsimp only [Option.some_bind']
  cases pyGetD props "site_area_location" (JVal.str "") <;> try rfl
  rename_i nameFb
  dsimp only [Option.some_bind']
  cases pyGetD props "site_area_description" nameFb <;> try rfl
  dsimp only [Option.some_bind']
  cases pyGetD props "site_route" (JVal.str "") <;> try rfl
  rename_i hwFb
  dsimp only [Option.some_bind']
  cases pyGetD tpims "route" hwFb <;> try rfl
  dsimp only [Option.some_bind']
  cases pyGetD props "site_area_label" (JVal.str "") <;> try rfl
  rename_i label
  dsimp only [Option.some_bind']
  cases pyContainsDash label <;> try rfl
  rename_i hasDash
  dsimp only [Option.some_bind']
  cases indDirection hasDash label <;> try rfl
  dsimp only [Option.some_bind']
  cases pyLen coords <;> try rfl
  rename_i clen
  dsimp only [Option.some_bind']
  cases indCoordAt clen coords 1 <;> try rfl
  dsimp only [Option.some_bind']
  cases indCoordAt clen coords 0 <;> try rfl
  dsimp only [Option.some_bind']
  cases pyGetD tpims "last_data" (JVal.str "") <;> rfl

/-- Inversion principle for a successful `rowInd`: every produced row
is the record literal built from the extracted raw feature values. -/
theorem rowInd_char (feat : JVal) (r : Row) (h : rowInd feat = some r) :
    ∃ props geo coords tpims capRaw availRaw status fallbackId site_id nameFb name
      hwFb highway label hasDash direction clen latitude longitude sourceTs,
      pyGetD feat "properties" (JVal.obj []) = some props ∧
      pyGetD feat "geometry" (JVal.obj []) = some geo ∧
      pyGetD geo "coordinates" (JVal.arr [JVal.null, JVal.null]) = some coords ∧
      pyGetD props "tpims" (JVal.obj []) = some tpims ∧
      pyGetD tpims "capacity" JVal.null = some capRaw ∧
      pyGetD tpims "spaces_available" JVal.null = some availRaw ∧
      pyGetD props "site_area_status" (JVal.str "") = some status ∧
      pyGetD feat "id" (JVal.str "") = some fallbackId ∧
      pyGetD props "site_label" fallbackId = some site_id ∧
      pyGetD props "site_area_location" (JVal.str "") = some nameFb ∧
      pyGetD props "site_area_description" nameFb = some name ∧
      pyGetD props "site_route" (JVal.str "") = some hwFb ∧
      pyGetD tpims "route" hwFb = some highway ∧
      pyGetD props "site_area_label" (JVal.str "") = some label ∧
      pyContainsDash label = some hasDash ∧
      indDirection hasDash label = some direction ∧
      pyLen coords = some clen ∧
      indCoordAt clen coords 1 = some latitude ∧
      indCoordAt clen coords 0 = some longitude ∧
      pyGetD tpims "last_data" (JVal.str "") = some sourceTs ∧
      r = { state := "Indiana", site_id := site_id, name := name, highway := highway,
            direction := direction, latitude := latitude, longitude := longitude,
            capacity := pyInt capRaw, available_spaces := negFilter (pyInt availRaw),
            trend := JVal.str "", is_open := indStatus status,
            trust_data := "", source_timestamp := sourceTs } := by
  rw [rowInd_eq_bind] at h
  rw [Option.bind_eq_some] at h
  obtain ⟨props, h1, h⟩ := h
  rw [Option.bind_eq_some] at h
  obtain ⟨geo, h2, h⟩ := h
  rw [Option.bind_eq_some] at h
  obtain ⟨coords, h3, h⟩ := h
  rw [Option.bind_eq_some] at h
  obtain ⟨tpims, h4, h⟩ := h
  rw [Option.bind_eq_some] at h
  obtain ⟨capRaw, h5, h⟩ := h
  rw [Option.bind_eq_some] at h
  obtain ⟨availRaw, h6, h⟩ := h
  rw [Option.bind_eq_some] at h
  obtain ⟨status, h7, h⟩ := h
  rw [Option.bind_eq_some] at h
  obtain ⟨fallbackId, h8, h⟩ := h
  rw [Option.bind_eq_some] at h
  obtain ⟨site_id, h9, h⟩ := h
  rw [Option.bind_eq_some] at h
  obtain ⟨nameFb, h10, h⟩ := h
  rw [Option.bind_eq_some] at h
  obtain ⟨name, h11, h⟩ := h
  rw [Option.bind_eq_some] at h
  obtain ⟨hwFb, h12, h⟩ := h
  rw [Option.bind_eq_some] at h
  obtain ⟨highway, h13, h⟩ := h
  rw [Option.bind_eq_some] at h
  obtain ⟨label, h14, h⟩ := h
  rw [Option.bind_eq_some] at h
  obtain ⟨hasDash, h15, h⟩ := h
  rw [Option.bind_eq_some] at h
  obtain ⟨direction, h16, h⟩ := h
  rw [Option.bind_eq_some] at h
  obtain ⟨clen, h17, h⟩ := h
  rw [Option.bind_eq_some] at h
  obtain ⟨latitude, h18, h⟩ := h
  rw [Option.bind_eq_some] at h
  obtain ⟨longitude, h19, h⟩ := h
  rw [Option.bind_eq_some] at h
  obtain ⟨sourceTs, h20, h⟩ := h
  rw [Option.some.injEq] at h
  exact ⟨props, geo, coords, tpims, capRaw, availRaw, status, fallbackId, site_id,
    nameFb, name, hwFb, highway, label, hasDash, direction, clen, latitude, longitude,
    sourceTs, h1, h2, h3, h4, h5, h6, h7, h8, h9, h10, h11, h12, h13, h14, h15, h16,
    h17, h18, h19, h20, h.symm⟩

/-- C10: the GeoJSON normalizer's output is independent of its dynamic
payload argument — for one static payload and any two dynamic
payloads, `parse_indiana` produces identical results, because the
dynamic feed's data is never read by this normalizer. -/
theorem parse_indiana_ignores_dynamic (sd d1 d2 : JVal) :
    parse_indiana sd d1 = parse_indiana sd d2 := rfl

/-- C7 counterexample: a static record whose location is the non-empty
list `[42]` is unwrapped to its non-mapping first element, and
`loc.get('latitude')` then raises, so `parse_standard` fails on it —
location normalisation is not total as claimed. -/
theorem location_normalize_counterexample :
    parse_standard "Illinois" [JVal.obj [("location", JVal.arr [JVal.int 42])]] []
      = Option.none := rfl

/-- C7 amended: a mapping location is used as-is; a non-empty sequence
is unwrapped to its first element unconditionally; the empty sequence
and every other non-mapping value become the empty mapping.  When the
unwrapped first element is itself a mapping, latitude extraction reads
it; when it is not, extraction raises instead of falling back to the
empty mapping. -/
theorem location_normalize_amended (fs : List (String × JVal)) (x : JVal)
    (xs : List JVal) (v : JVal)
    (hv : (∀ gs, v ≠ JVal.obj gs) ∧ (∀ y ys, v ≠ JVal.arr (y :: ys))) :
    normLoc (JVal.obj fs) = JVal.obj fs ∧
    normLoc (JVal.arr (x :: xs)) = x ∧
    normLoc v = JVal.obj [] ∧
    (∀ gs, x = JVal.obj gs →
      pyGetD (normLoc (JVal.arr (x :: xs))) "latitude" JVal.null
        = some (objGetD gs "latitude" JVal.null)) ∧
    ((∀ gs, x ≠ JVal.obj gs) →
      pyGetD (normLoc (JVal.arr (x :: xs))) "latitude" JVal.null = Option.none) := by
  obtain ⟨h1, h2⟩ := hv
  refine ⟨rfl, rfl, ?_, ?_, ?_⟩
  · cases v with
    | obj gs => exact absurd rfl (h1 gs)
    | arr ys =>
      cases ys with
      | nil => rfl
      | cons y ys => exact absurd rfl (h2 y ys)
    | null => rfl
    | bool b => rfl
    | int n => rfl
    | str s => rfl
  · rintro gs rfl
    rfl
  · intro h
    show pyGetD x "latitude" JVal.null = Option.none
    cases x with
    | obj gs => exact absurd rfl (h gs)
    | null => rfl
    | bool b => rfl
    | int n => rfl
    | str s => rfl
    | arr ys => rfl

/-- Witness for the amended C7 at concrete inputs: the one-element
list-of-mapping normalizes to the mapping, and a string location
normalizes to the empty mapping. -/
theorem location_normalize_amended_witness :
    normLoc (JVal.arr [JVal.obj [("latitude", JVal.int 41)]])
      = JVal.obj [("latitude", JVal.int 41)] ∧
    normLoc (JVal.str "loc") = JVal.obj [] :=
  have h := location_normalize_amended [] (JVal.obj [("latitude", JVal.int 41)]) []
    (JVal.str "loc") ⟨fun _ h => JVal.noConfusion h, fun _ _ h => JVal.noConfusion h⟩
  ⟨h.2.1, h.2.2.1⟩

/-- C2 counterexample: a static record with the malformed coordinate
`"latitude": "abc"` produces a row whose latitude is that non-numeric
string itself — neither a number nor null. -/
theorem numeric_fields_counterexample :
    (parse_standard "Illinois"
      [JVal.obj [("siteId", JVal.str "A"),
                 ("location", JVal.obj [("latitude", JVal.str "abc")])]] []).map
        (List.map Row.latitude) = some [JVal.str "abc"] ∧
    JVal.str "abc" ≠ JVal.null ∧ (∀ n : Int, JVal.str "abc" ≠ JVal.int n) :=
  ⟨rfl, fun h => JVal.noConfusion h, fun _ h => JVal.noConfusion h⟩

/-- C1 counterexample: a dynamic record whose raw `open` field is JSON
null yields `is_open = "None"`, a fourth value outside the documented
tri-state. -/
theorem is_open_escapes_triple :
    (parse_standard "Illinois" [JVal.obj [("siteId", JVal.str "A")]]
      [JVal.obj [("siteId", JVal.str "A"), ("open", JVal.null)]]).map
        (List.map Row.is_open) = some ["None"] ∧
    "None" ≠ "True" ∧ "None" ≠ "False" ∧ "None" ≠ "" :=
  ⟨rfl, by decide, by decide, by decide⟩

/-- C3: in the GeoJSON normalizer, a `spaces_available` that parses to
a negative integer yields a null `available_spaces`, while one that
parses to zero yields exactly zero — zero is never conflated with
unknown. -/
theorem indiana_negative_sentinel (feat : JVal) (r : Row)
    (props tpims availRaw : JVal)
    (h : rowInd feat = some r)
    (hp : pyGetD feat "properties" (JVal.obj []) = some props)
    (ht : pyGetD props "tpims" (JVal.obj []) = some tpims)
    (ha : pyGetD tpims "spaces_available" JVal.null = some availRaw) :
    (∀ n : Int, pyInt availRaw = some n → n < 0 → r.available_spaces = Option.none) ∧
    (pyInt availRaw = some 0 → r.available_spaces = some 0) := by
  obtain ⟨props', geo, coords, tpims', capRaw, availRaw', status, fallbackId, site_id,
    nameFb, name, hwFb, highway, label, hasDash, direction, clen, latitude, longitude,
    sourceTs, g1, g2, g3, g4, g5, g6, g7, g8, g9, g10, g11, g12, g13, g14, g15, g16,
    g17, g18, g19, g20, hr⟩ := rowInd_char feat r h
  rw [hp, Option.some.injEq] at g1
  subst g1
  rw [ht, Option.some.injEq] at g4
  subst g4
  rw [ha, Option.some.injEq] at g6
  subst g6
  subst hr
  constructor
  · intro n hn hneg
    show negFilter (pyInt availRaw) = Option.none
    rw [hn]
    simp [negFilter, hneg]
  · intro h0
    show negFilter (pyInt availRaw) = some 0
    rw [h0]
    simp [negFilter]

/-- Witness for C3 at two concrete features: `spaces_available = -1`
produces a null availability and `spaces_available = 0` produces
exactly zero. -/
theorem indiana_negative_sentinel_witness :
    rowInd (JVal.obj [("properties", JVal.obj [("tpims",
        JVal.obj [("spaces_available", JVal.int (-1))])])])
      = some { state := "Indiana", site_id := JVal.str "", name := JVal.str "",
               highway := JVal.str "", direction := JVal.str "",
               latitude := JVal.null, longitude := JVal.null,
               capacity := Option.none, available_spaces := Option.none,
               trend := JVal.str "", is_open := "", trust_data := "",
               source_timestamp := JVal.str "" } ∧
    rowInd (JVal.obj [("properties", JVal.obj [("tpims",
        JVal.obj [("spaces_available", JVal.int 0)])])])
      = some { state := "Indiana", site_id := JVal.str "", name := JVal.str "",
               highway := JVal.str "", direction := JVal.str "",
               latitude := JVal.null, longitude := JVal.null,
               capacity := Option.none, available_spaces := some 0,
               trend := JVal.str "", is_open := "", trust_data := "",
               source_timestamp := JVal.str "" } ∧
    ({ state := "Indiana", site_id := JVal.str "", name := JVal.str "",
       highway := JVal.str "", direction := JVal.str "",
       latitude := JVal.null, longitude := JVal.null,
       capacity := Option.none, available_spaces := Option.none,
       trend := JVal.str "", is_open := "", trust_data := "",
       source_timestamp := JVal.str "" : Row }).available_spaces = Option.none ∧
    ({ state := "Indiana", site_id := JVal.str "", name := JVal.str "",
       highway := JVal.str "", direction := JVal.str "",
       latitude := JVal.null, longitude := JVal.null,
       capacity := Option.none, available_spaces := some 0,
       trend := JVal.str "", is_open := "", trust_data := "",
       source_timestamp := JVal.str "" : Row }).available_spaces = some 0 :=
  ⟨rfl, rfl,
    (indiana_negative_sentinel (JVal.obj [("properties", JVal.obj [("tpims", JVal.obj [("spaces_available", JVal.int (-1))])])])
      ({ state := "Indiana", site_id := JVal.str "", name := JVal.str "",
         highway := JVal.str "", direction := JVal.str "",
         latitude := JVal.null, longitude := JVal.null,
         capacity := Option.none, available_spaces := Option.none,
         trend := JVal.str "", is_open := "", trust_data := "",
         source_timestamp := JVal.str "" } : Row)
      (JVal.obj [("tpims", JVal.obj [("spaces_available", JVal.int (-1))])])
      (JVal.obj [("spaces_available", JVal.int (-1))])
      (JVal.int (-1)) rfl rfl rfl rfl).1 (-1) rfl (by decide),
    (indiana_negative_sentinel (JVal.obj [("properties", JVal.obj [("tpims", JVal.obj [("spaces_available", JVal.int 0)])])])
      ({ state := "Indiana", site_id := JVal.str "", name := JVal.str "",
         highway := JVal.str "", direction := JVal.str "",
         latitude := JVal.null, longitude := JVal.null,
         capacity := Option.none, available_spaces := some 0,
         trend := JVal.str "", is_open := "", trust_data := "",
         source_timestamp := JVal.str "" } : Row)
      (JVal.obj [("tpims", JVal.obj [("spaces_available", JVal.int 0)])])
      (JVal.obj [("spaces_available", JVal.int 0)])
      (JVal.int 0) rfl rfl rfl rfl).2 rfl⟩

/-- C4: in the standard normalizer, `available_spaces` is the integer
coercion of the matched dynamic record's `reportedAvailable` alone —
null exactly on coercion failure and kept verbatim otherwise, with no
negative-value filtering. -/
theorem standard_avail_no_filter (state : String) (lookup : List (PyKey × JVal))
    (s : JVal) (r : Row) (sid : JVal) (k : PyKey) (availRaw : JVal)
    (h : rowStd state lookup s = some r)
    (hsid : pyGetD s "siteId" (JVal.str "") = some sid)
    (hk : toKey sid = some k)
    (hraw : pyGetD (dictGet lookup k (JVal.obj [])) "reportedAvailable" JVal.null
      = some availRaw) :
    r.available_spaces = pyInt availRaw ∧
    (pyInt availRaw = Option.none → r.available_spaces = Option.none) ∧
    (∀ n : Int, pyInt availRaw = some n → r.available_spaces = some n) := by
  obtain ⟨sid', locRaw, sidK, dynCap, capRaw, availRaw', name, highway, direction,
    latitude, longitude, trend, openRaw, trustRaw, tsStatic, sourceTs,
    g1, g2, g3, g4, g5, g6, g7, g8, g9, g10, g11, g12, g13, g14, g15, g16, hr⟩ :=
    rowStd_char state lookup s r h
  rw [hsid, Option.some.injEq] at g1
  subst g1
  rw [hk, Option.some.injEq] at g3
  subst g3
  rw [hraw, Option.some.injEq] at g6
  subst g6
  subst hr
  refine ⟨rfl, fun hn => ?_, fun n hn => ?_⟩ <;> simp [hn]

/-- Witness for C4 at a concrete site: a reported availability of `-5`
is kept as `-5`. -/
theorem standard_avail_no_filter_witness :
    rowStd "Illinois"
      [(PyKey.str "A", JVal.obj [("siteId", JVal.str "A"),
          ("reportedAvailable", JVal.int (-5))])]
      (JVal.obj [("siteId", JVal.str "A")])
      = some { state := "Illinois", site_id := JVal.str "A", name := JVal.str "",
               highway := JVal.str "", direction := JVal.str "",
               latitude := JVal.null, longitude := JVal.null,
               capacity := Option.none, available_spaces := some (-5),
               trend := JVal.str "", is_open := "", trust_data := "",
               source_timestamp := JVal.str "" } ∧
    ({ state := "Illinois", site_id := JVal.str "A", name := JVal.str "",
       highway := JVal.str "", direction := JVal.str "",
       latitude := JVal.null, longitude := JVal.null,
       capacity := Option.none, available_spaces := some (-5),
       trend := JVal.str "", is_open := "", trust_data := "",
       source_timestamp := JVal.str "" : Row }).available_spaces = some (-5) :=
  ⟨rfl,
    (standard_avail_no_filter "Illinois"
      [(PyKey.str "A", JVal.obj [("siteId", JVal.str "A"), ("reportedAvailable", JVal.int (-5))])]
      (JVal.obj [("siteId", JVal.str "A")])
      ({ state := "Illinois", site_id := JVal.str "A", name := JVal.str "",
         highway := JVal.str "", direction := JVal.str "",
         latitude := JVal.null, longitude := JVal.null,
         capacity := Option.none, available_spaces := some (-5),
         trend := JVal.str "", is_open := "", trust_data := "",
         source_timestamp := JVal.str "" } : Row)
      (JVal.str "A") (PyKey.str "A")
      (JVal.int (-5)) rfl rfl rfl rfl).2.2 (-5) rfl⟩

/-- C8: for a GeoJSON feature whose geometry coordinates are a list,
fewer than two elements make both output coordinates null; otherwise
the element at index 0 becomes longitude and the element at index 1
becomes latitude. -/
theorem geojson_coordinates (feat : JVal) (r : Row) (geo : JVal) (xs : List JVal)
    (h : rowInd feat = some r)
    (hg : pyGetD feat "geometry" (JVal.obj []) = some geo)
    (hc : pyGetD geo "coordinates" (JVal.arr [JVal.null, JVal.null])
      = some (JVal.arr xs)) :
    (xs.length < 2 → r.latitude = JVal.null ∧ r.longitude = JVal.null) ∧
    (2 ≤ xs.length → xs.get? 0 = some r.longitude ∧ xs.get? 1 = some r.latitude) := by
  obtain ⟨props, geo', coords, tpims, capRaw, availRaw, status, fallbackId, site_id,
    nameFb, name, hwFb, highway, label, hasDash, direction, clen, latitude, longitude,
    sourceTs, g1, g2, g3, g4, g5, g6, g7, g8, g9, g10, g11, g12, g13, g14, g15, g16,
    g17, g18, g19, g20, hr⟩ := rowInd_char feat r h
  rw [hg, Option.some.injEq] at g2
  subst g2
  rw [hc, Option.some.injEq] at g3
  subst g3
  rw [show pyLen (JVal.arr xs) = some xs.length from rfl, Option.some.injEq] at g17
  subst g17
  subst hr
  constructor
  · intro hlt
    unfold indCoordAt at g18 g19
    rw [if_neg (by omega)] at g18 g19
    rw [Option.some.injEq] at g18 g19
    subst g18
    subst g19
    exact ⟨rfl, rfl⟩
  · intro hge
    unfold indCoordAt at g18 g19
    rw [if_pos hge] at g18 g19
    exact ⟨g19, g18⟩

/-- Witness for C8 at a concrete feature with coordinate pair
`[-88, 41]`: longitude takes index 0 and latitude index 1. -/
theorem geojson_coordinates_witness :
    rowInd (JVal.obj [("geometry", JVal.obj [("coordinates",
        JVal.arr [JVal.int (-88), JVal.int 41])])])
      = some { state := "Indiana", site_id := JVal.str "", name := JVal.str "",
               highway := JVal.str "", direction := JVal.str "",
               latitude := JVal.int 41, longitude := JVal.int (-88),
               capacity := Option.none, available_spaces := Option.none,
               trend := JVal.str "", is_open := "", trust_data := "",
               source_timestamp := JVal.str "" } ∧
    [JVal.int (-88), JVal.int 41].get? 0
      = some ({ state := "Indiana", site_id := JVal.str "", name := JVal.str "",
                highway := JVal.str "", direction := JVal.str "",
                latitude := JVal.int 41, longitude := JVal.int (-88),
                capacity := Option.none, available_spaces := Option.none,
                trend := JVal.str "", is_open := "", trust_data := "",
                source_timestamp := JVal.str "" : Row }).longitude :=
  ⟨rfl,
    ((geojson_coordinates (JVal.obj [("geometry", JVal.obj [("coordinates", JVal.arr [JVal.int (-88), JVal.int 41])])])
      ({ state := "Indiana", site_id := JVal.str "", name := JVal.str "",
         highway := JVal.str "", direction := JVal.str "",
         latitude := JVal.int 41, longitude := JVal.int (-88),
         capacity := Option.none, available_spaces := Option.none,
         trend := JVal.str "", is_open := "", trust_data := "",
         source_timestamp := JVal.str "" } : Row)
      (JVal.obj [("coordinates", JVal.arr [JVal.int (-88), JVal.int 41])])
      [JVal.int (-88), JVal.int 41] rfl rfl rfl).2 (by decide)).1⟩

/-- A key that matches no entry of the lookup makes `dictGet` return
its default. -/
theorem dictGet_absent (entries : List (PyKey × JVal)) (k : PyKey) (d : JVal)
    (h : ∀ e ∈ entries, (e.1 == k) = false) : dictGet entries k d = d := by
  unfold dictGet
  have hf : entries.filter (fun e => e.1 == k) = [] := by
    rw [List.filter_eq_nil_iff]
    intro e he
    simp [h e he]
  rw [hf]
  rfl

/-- C6: `parse_standard` emits exactly one row per static record, and a
static record whose site identifier matches no key of the dynamic
lookup gets the defaults `available_spaces = null`, `is_open = ""`,
`trust_data = ""`. -/
theorem unmatched_static_defaults (state : String) (sl dl : List JVal)
    (lookup : List (PyKey × JVal)) (rows : List Row)
    (hl : dynLookupBuild dl = some lookup)
    (h : parse_standard state sl dl = some rows) :
    rows.length = sl.length ∧
    ∀ (i : Nat) (hi : i < sl.length) (hr : i < rows.length) (sid : JVal) (k : PyKey),
      pyGetD (sl.get ⟨i, hi⟩) "siteId" (JVal.str "") = some sid →
      toKey sid = some k →
      (∀ e ∈ lookup, (e.1 == k) = false) →
      (rows.get ⟨i, hr⟩).available_spaces = Option.none ∧
      (rows.get ⟨i, hr⟩).is_open = "" ∧
      (rows.get ⟨i, hr⟩).trust_data = "" := by
  unfold parse_standard at h
  rw [hl] at h
  dsimp only at h
  refine ⟨mapOpt_length _ sl rows h, ?_⟩
  intro i hi hr sid k hsid hk habs
  have hrow := mapOpt_get _ sl rows h i hi hr
  obtain ⟨sid', locRaw, sidK, dynCap, capRaw, availRaw, name, highway, direction,
    latitude, longitude, trend, openRaw, trustRaw, tsStatic, sourceTs,
    g1, g2, g3, g4, g5, g6, g7, g8, g9, g10, g11, g12, g13, g14, g15, g16, hrEq⟩ :=
    rowStd_char state lookup (sl.get ⟨i, hi⟩) (rows.get ⟨i, hr⟩) hrow
  rw [hsid, Option.some.injEq] at g1
  subst g1
  rw [hk, Option.some.injEq] at g3
  subst g3
  rw [dictGet_absent lookup k (JVal.obj []) habs] at g6 g13 g14
  simp only [pyGetD, objGetD, List.find?_nil, Option.some.injEq] at g6 g13 g14
  subst g6
  subst g13
  subst g14
  rw [hrEq]
  exact ⟨rfl, rfl, rfl⟩

/-- Witness for C6: one static site `A` with the only dynamic record
keyed `B` still yields its row, with the three dynamic-sourced fields
at their defaults. -/
theorem unmatched_static_defaults_witness :
    parse_standard "Illinois" [JVal.obj [("siteId", JVal.str "A")]]
      [JVal.obj [("siteId", JVal.str "B")]]
      = some [{ state := "Illinois", site_id := JVal.str "A", name := JVal.str "",
                highway := JVal.str "", direction := JVal.str "",
                latitude := JVal.null, longitude := JVal.null,
                capacity := Option.none, available_spaces := Option.none,
                trend := JVal.str "", is_open := "", trust_data := "",
                source_timestamp := JVal.str "" }] ∧
    (({ state := "Illinois", site_id := JVal.str "A", name := JVal.str "",
        highway := JVal.str "", direction := JVal.str "",
        latitude := JVal.null, longitude := JVal.null,
        capacity := Option.none, available_spaces := Option.none,
        trend := JVal.str "", is_open := "", trust_data := "",
        source_timestamp := JVal.str "" : Row }).available_spaces = Option.none ∧
     ({ state := "Illinois", site_id := JVal.str "A", name := JVal.str "",
        highway := JVal.str "", direction := JVal.str "",
        latitude := JVal.null, longitude := JVal.null,
        capacity := Option.none, available_spaces := Option.none,
        trend := JVal.str "", is_open := "", trust_data := "",
        source_timestamp := JVal.str "" : Row }).is_open = "" ∧
     ({ state := "Illinois", site_id := JVal.str "A", name := JVal.str "",
        highway := JVal.str "", direction := JVal.str "",
        latitude := JVal.null, longitude := JVal.null,
        capacity := Option.none, available_spaces := Option.none,
        trend := JVal.str "", is_open := "", trust_data := "",
        source_timestamp := JVal.str "" : Row }).trust_data = "") :=
  ⟨rfl,
    (unmatched_static_defaults "Illinois" [JVal.obj [("siteId", JVal.str "A")]]
      [JVal.obj [("siteId", JVal.str "B")]]
      [(PyKey.str "B", JVal.obj [("siteId", JVal.str "B")])]
      [{ state := "Illinois", site_id := JVal.str "A", name := JVal.str "",
         highway := JVal.str "", direction := JVal.str "",
         latitude := JVal.null, longitude := JVal.null,
         capacity := Option.none, available_spaces := Option.none,
         trend := JVal.str "", is_open := "", trust_data := "",
         source_timestamp := JVal.str "" }] rfl rfl).2 0 (by decide) (by decide)
      (JVal.str "A") (PyKey.str "A") rfl rfl (by decide)⟩

/-- The status derivation of the GeoJSON normalizer can only produce
the three documented values. -/
theorem indStatus_cases (v : JVal) :
    indStatus v = "True" ∨ indStatus v = "False" ∨ indStatus v = "" := by
  unfold indStatus
  split
  · exact Or.inl rfl
  · exact Or.inr (Or.inl rfl)
  · exact Or.inr (Or.inr rfl)

/-- Stringifying the `open` field of a record whose `open` field is a
boolean or absent stays within the documented tri-state. -/
theorem pyStr_openField (fs : List (String × JVal))
    (hb : boolOrAbsentOpen (JVal.obj fs) = true) :
    pyStr (objGetD fs "open" (JVal.str "")) = "True" ∨
    pyStr (objGetD fs "open" (JVal.str "")) = "False" ∨
    pyStr (objGetD fs "open" (JVal.str "")) = "" := by
  unfold boolOrAbsentOpen at hb
  unfold objGetD
  cases hf : fs.find? (fun p => p.1 == "open") with
  | none =>
    simp only [hf]
    exact Or.inr (Or.inr rfl)
  | some p =>
    simp only [hf] at hb ⊢
    cases hv : p.2 <;> rw [hv] at hb <;> simp at hb
    rename_i b
    cases b with
    | false => exact Or.inr (Or.inl rfl)
    | true => exact Or.inl rfl

/-- C1 amended: every GeoJSON row's `is_open` is one of the three
documented values unconditionally; a standard-format row's `is_open`
is within the three values whenever every dynamic record's raw `open`
field is a boolean or absent (otherwise the raw value is stringified
verbatim, e.g. a null `open` becomes `"None"`). -/
theorem is_open_tristate_amended (sd dd : JVal) (state : String) (sl dl : List JVal)
    (hdl : ∀ d ∈ dl, boolOrAbsentOpen d = true) :
    (∀ rows, parse_indiana sd dd = some rows →
      ∀ r ∈ rows, r.is_open = "True" ∨ r.is_open = "False" ∨ r.is_open = "") ∧
    (∀ rows, parse_standard state sl dl = some rows →
      ∀ r ∈ rows, r.is_open = "True" ∨ r.is_open = "False" ∨ r.is_open = "") := by
  constructor
  · intro rows h r hr
    unfold parse_indiana at h
    cases hit : pyIter (indFeats sd) with
    | none => rw [hit] at h; cases h
    | some feats =>
      rw [hit] at h
      dsimp only at h
      obtain ⟨feat, hfeat, hrowf⟩ := mapOpt_mem rowInd feats rows h r hr
      obtain ⟨props, geo, coords, tpims, capRaw, availRaw, status, fallbackId, site_id,
        nameFb, name, hwFb, highway, label, hasDash, direction, clen, latitude,
        longitude, sourceTs, g1, g2, g3, g4, g5, g6, g7, g8, g9, g10, g11, g12, g13,
        g14, g15, g16, g17, g18, g19, g20, hrEq⟩ := rowInd_char feat r hrowf
      rw [hrEq]
      exact indStatus_cases status
  · intro rows h r hr
    unfold parse_standard at h
    cases hlk : dynLookupBuild dl with
    | none => rw [hlk] at h; cases h
    | some lookup =>
      rw [hlk] at h
      dsimp only at h
      obtain ⟨s, hs, hrow⟩ := mapOpt_mem (rowStd state lookup) sl rows h r hr
      obtain ⟨sid, locRaw, sidK, dynCap, capRaw, availRaw, name, highway, direction,
        latitude, longitude, trend, openRaw, trustRaw, tsStatic, sourceTs,
        g1, g2, g3, g4, g5, g6, g7, g8, g9, g10, g11, g12, g13, g14, g15, g16, hrEq⟩ :=
        rowStd_char state lookup s r hrow
      rw [hrEq]
      show pyStr openRaw = "True" ∨ pyStr openRaw = "False" ∨ pyStr openRaw = ""
      rcases dictGet_default_or_mem lookup sidK (JVal.obj []) with hdef | hmem
      · rw [hdef] at g13
        simp only [pyGetD, objGetD, List.find?_nil, Option.some.injEq] at g13
        subst g13
        exact Or.inr (Or.inr rfl)
      · obtain ⟨e, he, heq2⟩ := List.mem_map.mp hmem
        obtain ⟨d, hd, hde⟩ := mapOpt_mem dynEntry dl lookup hlk e he
        have hsnd := dynEntry_snd d e hde
        rw [← heq2, hsnd] at g13
        obtain ⟨fs, hdfs, hw⟩ := pyGetD_eq_some d "open" (JVal.str "") openRaw g13
        subst hw
        exact pyStr_openField fs (hdfs ▸ hdl d hd)

/-- Witness for the amended C1: a dynamic record with boolean
`open = true` yields `is_open = "True"`, inside the tri-state. -/
theorem is_open_tristate_amended_witness :
    (∀ d ∈ [JVal.obj [("siteId", JVal.str "A"), ("open", JVal.bool true)]],
      boolOrAbsentOpen d = true) ∧
    parse_standard "Illinois" [JVal.obj [("siteId", JVal.str "A")]]
      [JVal.obj [("siteId", JVal.str "A"), ("open", JVal.bool true)]]
      = some [{ state := "Illinois", site_id := JVal.str "A", name := JVal.str "",
                highway := JVal.str "", direction := JVal.str "",
                latitude := JVal.null, longitude := JVal.null,
                capacity := Option.none, available_spaces := Option.none,
                trend := JVal.str "", is_open := "True", trust_data := "",
                source_timestamp := JVal.str "" }] ∧
    (({ state := "Illinois", site_id := JVal.str "A", name := JVal.str "",
        highway := JVal.str "", direction := JVal.str "",
        latitude := JVal.null, longitude := JVal.null,
        capacity := Option.none, available_spaces := Option.none,
        trend := JVal.str "", is_open := "True", trust_data := "",
        source_timestamp := JVal.str "" : Row }).is_open = "True" ∨
     ({ state := "Illinois", site_id := JVal.str "A", name := JVal.str "",
        highway := JVal.str "", direction := JVal.str "",
        latitude := JVal.null, longitude := JVal.null,
        capacity := Option.none, available_spaces := Option.none,
        trend := JVal.str "", is_open := "True", trust_data := "",
        source_timestamp := JVal.str "" : Row }).is_open = "False" ∨
     ({ state := "Illinois", site_id := JVal.str "A", name := JVal.str "",
        highway := JVal.str "", direction := JVal.str "",
        latitude := JVal.null, longitude := JVal.null,
        capacity := Option.none, available_spaces := Option.none,
        trend := JVal.str "", is_open := "True", trust_data := "",
        source_timestamp := JVal.str "" : Row }).is_open = "") :=
  ⟨by decide, rfl,
    (is_open_tristate_amended JVal.null JVal.null "Illinois"
      [JVal.obj [("siteId", JVal.str "A")]]
      [JVal.obj [("siteId", JVal.str "A"), ("open", JVal.bool true)]]
      (by decide)).2
      [{ state := "Illinois", site_id := JVal.str "A", name := JVal.str "",
         highway := JVal.str "", direction := JVal.str "",
         latitude := JVal.null, longitude := JVal.null,
         capacity := Option.none, available_spaces := Option.none,
         trend := JVal.str "", is_open := "True", trust_data := "",
         source_timestamp := JVal.str "" }] rfl _ (List.mem_cons_self _ _)⟩

/-- C2 amended: `capacity` and `available_spaces` are the integer
coercion of their raw feed values — a valid integer or null, with a
coercion failure becoming null, never zero — while `latitude` and
`longitude` are carried verbatim from the normalized location mapping
and may be any JSON value, including a non-numeric one. -/
theorem numeric_fields_amended (state : String) (lookup : List (PyKey × JVal))
    (s : JVal) (r : Row) (sid : JVal) (k : PyKey) (locRaw dynCap capRaw availRaw : JVal)
    (h : rowStd state lookup s = some r)
    (hsid : pyGetD s "siteId" (JVal.str "") = some sid)
    (hk : toKey sid = some k)
    (hloc : pyGetD s "location" (JVal.obj []) = some locRaw)
    (hdyncap : pyGetD (dictGet lookup k (JVal.obj [])) "capacity" JVal.null
      = some dynCap)
    (hcap : pyGetD s "capacity" dynCap = some capRaw)
    (havail : pyGetD (dictGet lookup k (JVal.obj [])) "reportedAvailable" JVal.null
      = some availRaw) :
    r.capacity = pyInt capRaw ∧ r.available_spaces = pyInt availRaw ∧
    (pyInt capRaw = Option.none → r.capacity = Option.none) ∧
    (pyInt availRaw = Option.none → r.available_spaces = Option.none) ∧
    pyGetD (normLoc locRaw) "latitude" JVal.null = some r.latitude ∧
    pyGetD (normLoc locRaw) "longitude" JVal.null = some r.longitude := by
  obtain ⟨sid', locRaw', sidK, dynCap', capRaw', availRaw', name, highway, direction,
    latitude, longitude, trend, openRaw, trustRaw, tsStatic, sourceTs,
    g1, g2, g3, g4, g5, g6, g7, g8, g9, g10, g11, g12, g13, g14, g15, g16, hrEq⟩ :=
    rowStd_char state lookup s r h
  rw [hsid, Option.some.injEq] at g1
  subst g1
  rw [hloc, Option.some.injEq] at g2
  subst g2
  rw [hk, Option.some.injEq] at g3
  subst g3
  rw [hdyncap, Option.some.injEq] at g4
  subst g4
  rw [hcap, Option.some.injEq] at g5
  subst g5
  rw [havail, Option.some.injEq] at g6
  subst g6
  subst hrEq
  refine ⟨rfl, rfl, fun hn => ?_, fun hn => ?_, g10, g11⟩ <;> simp [hn]

/-- Witness for the amended C2: a capacity that fails coercion becomes
null (not zero), and a string latitude is carried verbatim. -/
theorem numeric_fields_amended_witness :
    rowStd "Illinois" []
      (JVal.obj [("siteId", JVal.str "A"), ("capacity", JVal.str "x"),
                 ("location", JVal.obj [("latitude", JVal.str "abc")])])
      = some { state := "Illinois", site_id := JVal.str "A", name := JVal.str "",
               highway := JVal.str "", direction := JVal.str "",
               latitude := JVal.str "abc", longitude := JVal.null,
               capacity := Option.none, available_spaces := Option.none,
               trend := JVal.str "", is_open := "", trust_data := "",
               source_timestamp := JVal.str "" } ∧
    pyInt (JVal.str "x") = Option.none ∧
    ({ state := "Illinois", site_id := JVal.str "A", name := JVal.str "",
       highway := JVal.str "", direction := JVal.str "",
       latitude := JVal.str "abc", longitude := JVal.null,
       capacity := Option.none, available_spaces := Option.none,
       trend := JVal.str "", is_open := "", trust_data := "",
       source_timestamp := JVal.str "" : Row }).capacity = Option.none ∧
    pyGetD (normLoc (JVal.obj [("latitude", JVal.str "abc")])) "latitude" JVal.null
      = some ({ state := "Illinois", site_id := JVal.str "A", name := JVal.str "",
                highway := JVal.str "", direction := JVal.str "",
                latitude := JVal.str "abc", longitude := JVal.null,
                capacity := Option.none, available_spaces := Option.none,
                trend := JVal.str "", is_open := "", trust_data := "",
                source_timestamp := JVal.str "" : Row }).latitude :=
  have happ := numeric_fields_amended "Illinois" []
    (JVal.obj [("siteId", JVal.str "A"), ("capacity", JVal.str "x"),
               ("location", JVal.obj [("latitude", JVal.str "abc")])])
    ({ state := "Illinois", site_id := JVal.str "A", name := JVal.str "",
       highway := JVal.str "", direction := JVal.str "",
       latitude := JVal.str "abc", longitude := JVal.null,
       capacity := Option.none, available_spaces := Option.none,
       trend := JVal.str "", is_open := "", trust_data := "",
       source_timestamp := JVal.str "" : Row })
    (JVal.str "A") (PyKey.str "A") (JVal.obj [("latitude", JVal.str "abc")])
    JVal.null (JVal.str "x") JVal.null rfl rfl rfl rfl rfl rfl rfl
  ⟨rfl, rfl, happ.2.2.1 rfl, happ.2.2.2.2.1⟩

/-- C5: one UTC instant is captured for the run and formatted once;
every row of the run's batch carries exactly that `poll_utc`, whose
shape matches `\d\x7b4\x7d-\d\x7b2\x7d-\d\x7b2\x7dT\d\x7b2\x7d:\d\x7b2\x7d:\d\x7b2\x7dZ`.
The `DateTimeUTC.valid` hypothesis records the `datetime` field ranges
within which the digit-extraction rendering agrees with `strftime`. -/
theorem poll_utc_uniform_shape (t : DateTimeUTC) (fr : FetchResults) (rows : List Row)
    (hv : t.valid)
    (h : mainRows fr (formatPoll t) = some rows) :
    matchesPollShape (formatPoll t) = true ∧
    ∀ r ∈ rows, r.poll_utc = some (formatPoll t) := by
  refine ⟨formatPoll_shape t, ?_⟩
  unfold mainRows at h
  rw [Option.map_eq_some'] at h
  obtain ⟨rows0, hc, hrows⟩ := h
  subst hrows
  intro r hr
  simp only [stampRows, List.mem_map] at hr
  obtain ⟨r0, hr0, hrr⟩ := hr
  subst hrr
  rfl

/-- Witness for C5: a run at 2026-10-12T03:04:05Z over one Illinois
site produces a batch whose single row carries exactly that stamp. -/
theorem poll_utc_uniform_shape_witness :
    DateTimeUTC.valid ⟨2026, 10, 12, 3, 4, 5⟩ ∧
    mainRows
      { ilDynamic := Option.none,
        ilStatic := some (JVal.arr [JVal.obj [("siteId", JVal.str "A")]]),
        inDynamic := Option.none, inStatic := Option.none,
        kyDynamic := Option.none, kyStatic := Option.none,
        mnDynamic := Option.none, mnStatic := Option.none }
      (formatPoll ⟨2026, 10, 12, 3, 4, 5⟩)
      = some [{ state := "Illinois", site_id := JVal.str "A", name := JVal.str "",
                highway := JVal.str "", direction := JVal.str "",
                latitude := JVal.null, longitude := JVal.null,
                capacity := Option.none, available_spaces := Option.none,
                trend := JVal.str "", is_open := "", trust_data := "",
                source_timestamp := JVal.str "",
                poll_utc := some "2026-10-12T03:04:05Z" }] ∧
    matchesPollShape (formatPoll ⟨2026, 10, 12, 3, 4, 5⟩) = true ∧
    ∀ r ∈ [{ state := "Illinois", site_id := JVal.str "A", name := JVal.str "",
             highway := JVal.str "", direction := JVal.str "",
             latitude := JVal.null, longitude := JVal.null,
             capacity := Option.none, available_spaces := Option.none,
             trend := JVal.str "", is_open := "", trust_data := "",
             source_timestamp := JVal.str "",
             poll_utc := some "2026-10-12T03:04:05Z" : Row }],
      r.poll_utc = some (formatPoll ⟨2026, 10, 12, 3, 4, 5⟩) :=
  ⟨by unfold DateTimeUTC.valid; decide, rfl,
    poll_utc_uniform_shape ⟨2026, 10, 12, 3, 4, 5⟩
      { ilDynamic := Option.none,
        ilStatic := some (JVal.arr [JVal.obj [("siteId", JVal.str "A")]]),
        inDynamic := Option.none, inStatic := Option.none,
        kyDynamic := Option.none, kyStatic := Option.none,
        mnDynamic := Option.none, mnStatic := Option.none }
      [{ state := "Illinois", site_id := JVal.str "A", name := JVal.str "",
         highway := JVal.str "", direction := JVal.str "",
         latitude := JVal.null, longitude := JVal.null,
         capacity := Option.none, available_spaces := Option.none,
         trend := JVal.str "", is_open := "", trust_data := "",
         source_timestamp := JVal.str "",
         poll_utc := some "2026-10-12T03:04:05Z" }]
      (by unfold DateTimeUTC.valid; decide) rfl⟩

/-- C9: with zero rows collected, the run exits 1 exactly when a feed
error was recorded and 0 otherwise; with rows collected, the run exits
0 when the sink reports no row errors (feed errors notwithstanding)
and 1 when it reports any. -/
theorem run_exit_contract (fr : FetchResults) (poll : String)
    (sink : List Row → List String) (rows0 : List Row)
    (h : collectRows fr = some rows0) :
    (rows0 = [] → mainRun fr poll sink = some (if feedErrorCount fr = 0 then 0 else 1)) ∧
    (rows0 ≠ [] →
      (sink (stampRows poll rows0) = [] → mainRun fr poll sink = some 0) ∧
      (sink (stampRows poll rows0) ≠ [] → mainRun fr poll sink = some 1)) := by
  unfold mainRun
  rw [h]
  dsimp only
  constructor
  · rintro rfl
    simp [stampRows]
  · intro hne
    have hne2 : (stampRows poll rows0).isEmpty = false := by
      simp [stampRows, hne]
    rw [hne2]
    constructor
    · intro hs
      simp [hs]
    · intro hs
      simp [hs]

/-- Witness for C9: one collected row, a clean sink exits 0 and a
rejecting sink exits 1. -/
theorem run_exit_contract_witness :
    collectRows
      { ilDynamic := Option.none,
        ilStatic := some (JVal.arr [JVal.obj [("siteId", JVal.str "A")]]),
        inDynamic := Option.none, inStatic := Option.none,
        kyDynamic := Option.none, kyStatic := Option.none,
        mnDynamic := Option.none, mnStatic := Option.none }
      = some [{ state := "Illinois", site_id := JVal.str "A", name := JVal.str "",
                highway := JVal.str "", direction := JVal.str "",
                latitude := JVal.null, longitude := JVal.null,
                capacity := Option.none, available_spaces := Option.none,
                trend := JVal.str "", is_open := "", trust_data := "",
                source_timestamp := JVal.str "" }] ∧
    mainRun
      { ilDynamic := Option.none,
        ilStatic := some (JVal.arr [JVal.obj [("siteId", JVal.str "A")]]),
        inDynamic := Option.none, inStatic := Option.none,
        kyDynamic := Option.none, kyStatic := Option.none,
        mnDynamic := Option.none, mnStatic := Option.none }
      "2026-10-12T03:04:05Z" (fun _ => []) = some 0 ∧
    mainRun
      { ilDynamic := Option.none,
        ilStatic := some (JVal.arr [JVal.obj [("siteId", JVal.str "A")]]),
        inDynamic := Option.none, inStatic := Option.none,
        kyDynamic := Option.none, kyStatic := Option.none,
        mnDynamic := Option.none, mnStatic := Option.none }
      "2026-10-12T03:04:05Z" (fun _ => ["row error"]) = some 1 :=
  have hc : collectRows
      { ilDynamic := Option.none,
        ilStatic := some (JVal.arr [JVal.obj [("siteId", JVal.str "A")]]),
        inDynamic := Option.none, inStatic := Option.none,
        kyDynamic := Option.none, kyStatic := Option.none,
        mnDynamic := Option.none, mnStatic := Option.none }
      = some [{ state := "Illinois", site_id := JVal.str "A", name := JVal.str "",
                highway := JVal.str "", direction := JVal.str "",
                latitude := JVal.null, longitude := JVal.null,
                capacity := Option.none, available_spaces := Option.none,
                trend := JVal.str "", is_open := "", trust_data := "",
                source_timestamp := JVal.str "" }] := rfl
  ⟨hc,
    ((run_exit_contract _ "2026-10-12T03:04:05Z" (fun _ => []) _ hc).2
      (by simp)).1 rfl,
    ((run_exit_contract _ "2026-10-12T03:04:05Z" (fun _ => ["row error"]) _ hc).2
      (by simp)).2 (by simp)⟩
